import Mathlib

/-!
Verification of `ultralytics/solutions/vision_eye.py` (class `VisionEye`).

The Python class is a thin per-frame annotation loop:

```
def __init__(self, **kwargs):
    super().__init__(**kwargs)
    self.vision_point = (20, 20)

def set_vision_point(self, vision_point):
    self.vision_point = vision_point

def mapping(self, im0):
    self.extract_tracks(im0)
    plot_im = im0
    annotator = SolutionAnnotator(plot_im, self.line_width)
    for cls, t_id, box in zip(self.clss, self.track_ids, self.boxes):
        annotator.box_label(box, label=self.names[cls], color=colors(int(t_id), True))
        annotator.visioneye(box, self.vision_point)
    self.display_output(plot_im)
    return SolutionResults(plot_im=plot_im,
                           total_tracks=len(self.track_ids),
                           verbose=self.verbose)
```

We embed the component shallowly.  The external collaborators (the tracker
`extract_tracks`, the palette function `colors`, the names table
`self.names`, and the raster primitives behind `SolutionAnnotator` and
`display_output`) live outside the given source; following their contracts
they are modelled as opaque parameters, and the frame buffer is modelled as
a base image identifier together with the list of raster operations applied
to it, so that in-place mutation becomes explicit state threading.  Each
collaborator invocation that `mapping` performs is recorded in a trace of
`DrawEvent`s, which is what the observable-behaviour claims quantify over.
-/

/-- A 2D pixel coordinate.  Coordinates are unconstrained integers: the
spec allows negative and out-of-canvas points. -/
structure Point where
  x : Int
  y : Int
deriving DecidableEq, Repr

/-- An axis-aligned bounding box (min/max pixel coordinates). -/
structure Box where
  x1 : Int
  y1 : Int
  x2 : Int
  y2 : Int
deriving DecidableEq, Repr

/-- A display color (the palette returns a BGR triple). -/
abbrev Color := Nat × Nat × Nat

/-- One collaborator invocation made by `mapping`: a labeled-box draw
(`annotator.box_label`), a vision-link draw (`annotator.visioneye`), or the
final display/emit call (`self.display_output`). -/
inductive DrawEvent where
  | box_label (box : Box) (label : String) (color : Color) (lineWidth : Nat)
  | visioneye (box : Box) (point : Point)
  | display
deriving DecidableEq, Repr

/-- The frame buffer: an identifier of the underlying image plus the raster
operations that have been applied to it in place.  Draw calls append an
operation; they never change `base`, which models object identity of the
caller's buffer. -/
structure Frame where
  base : Nat
  ops : List DrawEvent
deriving DecidableEq, Repr

/-- A raster draw mutates the frame buffer in place: the operation is
appended to the buffer's operation list. -/
def applyDraw (f : Frame) (e : DrawEvent) : Frame :=
  { f with ops := f.ops ++ [e] }

/-- Modelled from the spec: the Tracker collaborator (`extract_tracks`,
from the `BaseSolution` base class, not in the given source) populates
`self.clss`, `self.track_ids` and `self.boxes` for the frame.  We carry the
three per-frame sequences it produces. -/
structure TrackerOut where
  clss : List Nat
  track_ids : List Int
  boxes : List Box
deriving DecidableEq, Repr

/-- The annotator state: the vision point set by `__init__` /
`set_vision_point`, plus the configuration inherited from `BaseSolution`
(`line_width`, `verbose`, and the class-name table `names`). -/
structure VisionEye where
  vision_point : Point
  line_width : Nat
  verbose : Bool
  names : Nat → String

/-- `self.vision_point = vision_point`: the setter replaces the stored
vision point and touches nothing else. -/
def set_vision_point (s : VisionEye) (p : Point) : VisionEye :=
  { s with vision_point := p }

/-- Modelled from the spec: `BaseSolution.__init__` (not in the given
source) installs the configured `line_width`, `verbose` and `names`; the
`VisionEye.__init__` body then sets `self.vision_point = (20, 20)`. -/
structure Config where
  line_width : Nat
  verbose : Bool
  names : Nat → String

/-- `VisionEye.__init__`: base-class configuration, then the vision point
default `(20, 20)` from the source. -/
def VisionEye.init (cfg : Config) : VisionEye :=
  { vision_point := ⟨20, 20⟩
    line_width := cfg.line_width
    verbose := cfg.verbose
    names := cfg.names }

/-- `SolutionResults(plot_im=..., total_tracks=..., verbose=...)`. -/
structure SolutionResults where
  plot_im : Frame
  total_tracks : Nat
  verbose : Bool
deriving DecidableEq, Repr

/-- Python `zip` over the three per-frame sequences: truncates to the
shortest. -/
def zip3 : List Nat → List Int → List Box → List (Nat × Int × Box)
  | c :: cs, t :: ts, b :: bs => (c, t, b) :: zip3 cs ts bs
  | _, _, _ => []

/-- The body of the `for cls, t_id, box in zip(...)` loop: for each zipped
triple, one `box_label` draw (label from the names table, color from the
palette applied to the track id, stroke from the annotator's `line_width`)
followed by one `visioneye` draw at the stored vision point.  Both mutate
the frame in place; the function returns the mutated frame and the trace of
draw calls in order. -/
def annotateLoop (s : VisionEye) (colors : Int → Color) :
    List (Nat × Int × Box) → Frame → Frame × List DrawEvent
  | [], f => (f, [])
  | (cls, t_id, box) :: rest, f =>
    let e1 := DrawEvent.box_label box (s.names cls) (colors t_id) s.line_width
    let e2 := DrawEvent.visioneye box s.vision_point
    let f2 := applyDraw (applyDraw f e1) e2
    let r := annotateLoop s colors rest f2
    (r.1, e1 :: e2 :: r.2)

/-- `VisionEye.mapping(im0)`: extract tracks, alias `plot_im = im0`, run
the annotation loop over the zip of classes, track ids and boxes, display
the mutated frame, and return a `SolutionResults` with
`total_tracks = len(self.track_ids)`.  Returns the final frame buffer, the
full trace of collaborator draw/display invocations, and the result. -/
def mapping (s : VisionEye) (colors : Int → Color) (tracker : Frame → TrackerOut)
    (im0 : Frame) : Frame × List DrawEvent × SolutionResults :=
  let t := tracker im0
  let plot_im := im0
  let r := annotateLoop s colors (zip3 t.clss t.track_ids t.boxes) plot_im
  let trace := r.2 ++ [DrawEvent.display]
  (r.1, trace,
    { plot_im := r.1
      total_tracks := t.track_ids.length
      verbose := s.verbose })

/-- The trace of collaborator invocations of one `mapping` call. -/
def traceOf (s : VisionEye) (colors : Int → Color) (tracker : Frame → TrackerOut)
    (im0 : Frame) : List DrawEvent :=
  (mapping s colors tracker im0).2.1

/-- The `SolutionResults` returned by one `mapping` call. -/
def resultOf (s : VisionEye) (colors : Int → Color) (tracker : Frame → TrackerOut)
    (im0 : Frame) : SolutionResults :=
  (mapping s colors tracker im0).2.2

/-- The frame buffer after one `mapping` call (the caller's buffer, mutated
in place). -/
def frameOf (s : VisionEye) (colors : Int → Color) (tracker : Frame → TrackerOut)
    (im0 : Frame) : Frame :=
  (mapping s colors tracker im0).1

/-- Is the event a labeled-box draw? -/
def isBoxLabel : DrawEvent → Bool
  | .box_label _ _ _ _ => true
  | _ => false

/-- Is the event a vision-link draw? -/
def isVisioneye : DrawEvent → Bool
  | .visioneye _ _ => true
  | _ => false

/-- The boxes of the labeled-box draws of a trace, in order. -/
def boxLabelBoxes (tr : List DrawEvent) : List Box :=
  tr.filterMap fun e =>
    match e with
    | .box_label b _ _ _ => some b
    | _ => none

/-- The colors of the labeled-box draws of a trace, in order. -/
def boxLabelColors (tr : List DrawEvent) : List Color :=
  tr.filterMap fun e =>
    match e with
    | .box_label _ _ c _ => some c
    | _ => none

/-- The boxes of the vision-link draws of a trace, in order. -/
def visioneyeBoxes (tr : List DrawEvent) : List Box :=
  tr.filterMap fun e =>
    match e with
    | .visioneye b _ => some b
    | _ => none

/-- The vision points of the vision-link draws of a trace, in order. -/
def visioneyePoints (tr : List DrawEvent) : List Point :=
  tr.filterMap fun e =>
    match e with
    | .visioneye _ p => some p
    | _ => none

/-- Modelled from the spec: the collaborators may raise (`Tracker`,
`Palette`, or `Canvas` failure); a raising call is embedded as a function
returning `Except ε`.  The draw primitives mutate the frame in place, so on
success they return the mutated buffer. -/
structure Collab (ε : Type) where
  tracker : Frame → Except ε TrackerOut
  colors : Int → Except ε Color
  box_label : Frame → Box → String → Color → Nat → Except ε Frame
  visioneye : Frame → Box → Point → Except ε Frame
  display : Frame → Except ε Unit

/-- The annotation loop with fallible collaborators.  `mapping` contains no
try/except, so the first collaborator failure stops the loop; the frame
returned alongside the error is the buffer as mutated so far. -/
def annotateLoopE {ε : Type} (s : VisionEye) (col : Collab ε) :
    List (Nat × Int × Box) → Frame → Frame × Option ε
  | [], f => (f, none)
  | (cls, t_id, box) :: rest, f =>
    match col.colors t_id with
    | .error e => (f, some e)
    | .ok c =>
      match col.box_label f box (s.names cls) c s.line_width with
      | .error e => (f, some e)
      | .ok f1 =>
        match col.visioneye f1 box s.vision_point with
        | .error e => (f1, some e)
        | .ok f2 => annotateLoopE s col rest f2

/-- `VisionEye.mapping(im0)` with fallible collaborators: no failure is
caught, wrapped or retried, so the first error propagates to the caller
and the call returns no `SolutionResults`; the frame component carries the
caller's buffer with whatever draws completed before the failure. -/
def mappingE {ε : Type} (s : VisionEye) (col : Collab ε) (im0 : Frame) :
    Frame × Except ε SolutionResults :=
  match col.tracker im0 with
  | .error e => (im0, .error e)
  | .ok t =>
    match annotateLoopE s col (zip3 t.clss t.track_ids t.boxes) im0 with
    | (f, some e) => (f, .error e)
    | (f, none) =>
      match col.display f with
      | .error e => (f, .error e)
      | .ok _ =>
        (f, .ok { plot_im := f, total_tracks := t.track_ids.length, verbose := s.verbose })

/-- The pure draw-call list of the loop: it depends only on the state, the
palette and the zipped triples, not on the frame threaded through. -/
def drawList (s : VisionEye) (colors : Int → Color) :
    List (Nat × Int × Box) → List DrawEvent
  | [] => []
  | (cls, t_id, box) :: rest =>
    DrawEvent.box_label box (s.names cls) (colors t_id) s.line_width ::
      DrawEvent.visioneye box s.vision_point :: drawList s colors rest

/-- A concrete class-name table for concrete evaluations. -/
def sampleNames : Nat → String :=
  fun c => if c = 0 then "person" else "car"

/-- A concrete pure palette (20-entry cycle, as the contract's
`colorFor`). -/
def samplePalette : Int → Color :=
  fun i => (i.natAbs % 20, 64, 128)

/-- The first box of the end-to-end scenario. -/
def sampleBox1 : Box := ⟨10, 10, 50, 50⟩

/-- The second box of the end-to-end scenario. -/
def sampleBox2 : Box := ⟨60, 60, 90, 90⟩

/-- A concrete annotator state with the default vision point. -/
def sampleState : VisionEye :=
  { vision_point := ⟨20, 20⟩, line_width := 2, verbose := true, names := sampleNames }

/-- The same drawing configuration as `sampleState`, with a different
verbosity flag. -/
def sampleState2 : VisionEye :=
  { vision_point := ⟨20, 20⟩, line_width := 2, verbose := false, names := sampleNames }

/-- A concrete configuration for `VisionEye.init`. -/
def sampleConfig : Config :=
  { line_width := 2, verbose := true, names := sampleNames }

/-- A concrete input frame buffer. -/
def sampleFrame : Frame := ⟨0, []⟩

/-- A second, distinct input frame buffer. -/
def sampleFrame2 : Frame := ⟨1, []⟩

/-- The two-track end-to-end scenario of the spec. -/
def sampleTracks : TrackerOut :=
  { clss := [0, 1], track_ids := [5, 7], boxes := [sampleBox1, sampleBox2] }

/-- A tracker returning the two-track scenario for every frame. -/
def sampleTracker : Frame → TrackerOut := fun _ => sampleTracks

/-- Two tracks carrying the same track id, for color stability. -/
def dupTracks : TrackerOut :=
  { clss := [0, 1], track_ids := [5, 5], boxes := [sampleBox1, sampleBox2] }

/-- A tracker returning the duplicate-id scenario for every frame. -/
def dupTracker : Frame → TrackerOut := fun _ => dupTracks

/-- A single-track scenario. -/
def oneTracks : TrackerOut :=
  { clss := [0], track_ids := [5], boxes := [sampleBox1] }

/-- A tracker returning the single-track scenario for every frame. -/
def oneTracker : Frame → TrackerOut := fun _ => oneTracks

/-- A tracker reporting no detections for every frame. -/
def emptyTracker : Frame → TrackerOut := fun _ => ⟨[], [], []⟩

/-- Fallible collaborators whose `visioneye` primitive fails (with error
code 7) once three raster operations are on the buffer: reaching the
two-track scenario, the second vision-link draw raises. -/
def failingCollab : Collab Nat :=
  { tracker := fun _ => .ok sampleTracks
    colors := fun i => .ok (samplePalette i)
    box_label := fun f b l c w => .ok (applyDraw f (.box_label b l c w))
    visioneye := fun f b p =>
      if 3 ≤ f.ops.length then .error 7 else .ok (applyDraw f (.visioneye b p))
    display := fun _ => .ok () }

theorem annotateLoop_snd (s : VisionEye) (colors : Int → Color)
    (l : List (Nat × Int × Box)) (f : Frame) :
    (annotateLoop s colors l f).2 = drawList s colors l := by
  induction l generalizing f with
  | nil => rfl
  | cons x rest ih =>
    obtain ⟨cls, t_id, box⟩ := x
    simp [annotateLoop, drawList, ih]

theorem annotateLoop_fst (s : VisionEye) (colors : Int → Color)
    (l : List (Nat × Int × Box)) (f : Frame) :
    (annotateLoop s colors l f).1 = { f with ops := f.ops ++ drawList s colors l } := by
  induction l generalizing f with
  | nil => simp [annotateLoop, drawList]
  | cons x rest ih =>
    obtain ⟨cls, t_id, box⟩ := x
    simp [annotateLoop, drawList, ih, applyDraw]

theorem drawList_countP_boxLabel (s : VisionEye) (colors : Int → Color)
    (l : List (Nat × Int × Box)) :
    (drawList s colors l).countP isBoxLabel = l.length := by
  induction l with
  | nil => rfl
  | cons x rest ih =>
    obtain ⟨cls, t_id, box⟩ := x
    simp [drawList, List.countP_cons, isBoxLabel, ih]

theorem drawList_countP_visioneye (s : VisionEye) (colors : Int → Color)
    (l : List (Nat × Int × Box)) :
    (drawList s colors l).countP isVisioneye = l.length := by
  induction l with
  | nil => rfl
  | cons x rest ih =>
    obtain ⟨cls, t_id, box⟩ := x
    simp [drawList, List.countP_cons, isVisioneye, ih]

theorem drawList_boxLabelBoxes (s : VisionEye) (colors : Int → Color)
    (l : List (Nat × Int × Box)) :
    boxLabelBoxes (drawList s colors l) = l.map fun x => x.2.2 := by
  induction l with
  | nil => rfl
  | cons x rest ih =>
    obtain ⟨cls, t_id, box⟩ := x
    simp [drawList, boxLabelBoxes, List.filterMap_cons] at ih ⊢
    exact ih

theorem drawList_visioneyeBoxes (s : VisionEye) (colors : Int → Color)
    (l : List (Nat × Int × Box)) :
    visioneyeBoxes (drawList s colors l) = l.map fun x => x.2.2 := by
  induction l with
  | nil => rfl
  | cons x rest ih =>
    obtain ⟨cls, t_id, box⟩ := x
    simp [drawList, visioneyeBoxes, List.filterMap_cons] at ih ⊢
    exact ih

theorem drawList_boxLabelColors (s : VisionEye) (colors : Int → Color)
    (l : List (Nat × Int × Box)) :
    boxLabelColors (drawList s colors l) = l.map fun x => colors x.2.1 := by
  induction l with
  | nil => rfl
  | cons x rest ih =>
    obtain ⟨cls, t_id, box⟩ := x
    simp [drawList, boxLabelColors, List.filterMap_cons] at ih ⊢
    exact ih

theorem drawList_visioneyePoints (s : VisionEye) (colors : Int → Color)
    (l : List (Nat × Int × Box)) :
    visioneyePoints (drawList s colors l) = l.map fun _ => s.vision_point := by
  induction l with
  | nil => rfl
  | cons x rest ih =>
    obtain ⟨cls, t_id, box⟩ := x
    simp [drawList, visioneyePoints, List.filterMap_cons] at ih ⊢
    exact ih

theorem drawList_no_display (s : VisionEye) (colors : Int → Color)
    (l : List (Nat × Int × Box)) :
    DrawEvent.display ∉ drawList s colors l := by
  induction l with
  | nil => simp [drawList]
  | cons x rest ih =>
    obtain ⟨cls, t_id, box⟩ := x
    simp [drawList, ih]

theorem drawList_visioneye_mem (s : VisionEye) (colors : Int → Color)
    (l : List (Nat × Int × Box)) (b : Box) (q : Point)
    (h : DrawEvent.visioneye b q ∈ drawList s colors l) : q = s.vision_point := by
  induction l with
  | nil => simp [drawList] at h
  | cons x rest ih =>
    obtain ⟨cls, t_id, box⟩ := x
    simp only [drawList, List.mem_cons] at h
    rcases h with h | h | h
    · exact absurd h (by simp)
    · exact (DrawEvent.visioneye.injEq _ _ _ _).mp h |>.2
    · exact ih h

theorem traceOf_eq (s : VisionEye) (colors : Int → Color)
    (tracker : Frame → TrackerOut) (im0 : Frame) :
    traceOf s colors tracker im0 =
      drawList s colors
          (zip3 (tracker im0).clss (tracker im0).track_ids (tracker im0).boxes) ++
        [DrawEvent.display] := by
  simp [traceOf, mapping, annotateLoop_snd]

theorem zip3_length (a : List Nat) (b : List Int) (c : List Box) :
    (zip3 a b c).length = min a.length (min b.length c.length) := by
  induction a generalizing b c with
  | nil => simp [zip3]
  | cons x xs ih =>
    cases b with
    | nil => simp [zip3]
    | cons y ys =>
      cases c with
      | nil => simp [zip3]
      | cons z zs =>
        simp only [zip3, List.length_cons, ih]
        omega

theorem zip3_map_box (a : List Nat) (b : List Int) (c : List Box)
    (hab : a.length = b.length) (hbc : b.length = c.length) :
    (zip3 a b c).map (fun x => x.2.2) = c := by
  induction a generalizing b c with
  | nil =>
    cases b with
    | nil =>
      cases c with
      | nil => rfl
      | cons z zs => simp at hbc
    | cons y ys => simp at hab
  | cons x xs ih =>
    cases b with
    | nil => simp at hab
    | cons y ys =>
      cases c with
      | nil => simp at hbc
      | cons z zs =>
        simp only [zip3, List.map_cons]
        simp only [List.length_cons, Nat.succ.injEq] at hab hbc
        rw [ih ys zs hab hbc]

theorem boxLabelBoxes_append (a b : List DrawEvent) :
    boxLabelBoxes (a ++ b) = boxLabelBoxes a ++ boxLabelBoxes b := by
  simp [boxLabelBoxes]

theorem visioneyeBoxes_append (a b : List DrawEvent) :
    visioneyeBoxes (a ++ b) = visioneyeBoxes a ++ visioneyeBoxes b := by
  simp [visioneyeBoxes]

theorem boxLabelColors_append (a b : List DrawEvent) :
    boxLabelColors (a ++ b) = boxLabelColors a ++ boxLabelColors b := by
  simp [boxLabelColors]

theorem visioneyePoints_append (a b : List DrawEvent) :
    visioneyePoints (a ++ b) = visioneyePoints a ++ visioneyePoints b := by
  simp [visioneyePoints]

theorem traceOf_countP_boxLabel (s : VisionEye) (colors : Int → Color)
    (tracker : Frame → TrackerOut) (im0 : Frame) :
    (traceOf s colors tracker im0).countP isBoxLabel =
      (zip3 (tracker im0).clss (tracker im0).track_ids (tracker im0).boxes).length := by
  rw [traceOf_eq, List.countP_append, drawList_countP_boxLabel]
  have h0 : List.countP isBoxLabel [DrawEvent.display] = 0 := rfl
  rw [h0, Nat.add_zero]

theorem traceOf_countP_visioneye (s : VisionEye) (colors : Int → Color)
    (tracker : Frame → TrackerOut) (im0 : Frame) :
    (traceOf s colors tracker im0).countP isVisioneye =
      (zip3 (tracker im0).clss (tracker im0).track_ids (tracker im0).boxes).length := by
  rw [traceOf_eq, List.countP_append, drawList_countP_visioneye]
  have h0 : List.countP isVisioneye [DrawEvent.display] = 0 := rfl
  rw [h0, Nat.add_zero]

theorem traceOf_boxLabelBoxes (s : VisionEye) (colors : Int → Color)
    (tracker : Frame → TrackerOut) (im0 : Frame) :
    boxLabelBoxes (traceOf s colors tracker im0) =
      (zip3 (tracker im0).clss (tracker im0).track_ids (tracker im0).boxes).map
        fun x => x.2.2 := by
  rw [traceOf_eq, boxLabelBoxes_append, drawList_boxLabelBoxes]
  have h0 : boxLabelBoxes [DrawEvent.display] = [] := rfl
  rw [h0, List.append_nil]

theorem traceOf_visioneyeBoxes (s : VisionEye) (colors : Int → Color)
    (tracker : Frame → TrackerOut) (im0 : Frame) :
    visioneyeBoxes (traceOf s colors tracker im0) =
      (zip3 (tracker im0).clss (tracker im0).track_ids (tracker im0).boxes).map
        fun x => x.2.2 := by
  rw [traceOf_eq, visioneyeBoxes_append, drawList_visioneyeBoxes]
  have h0 : visioneyeBoxes [DrawEvent.display] = [] := rfl
  rw [h0, List.append_nil]

theorem traceOf_boxLabelColors (s : VisionEye) (colors : Int → Color)
    (tracker : Frame → TrackerOut) (im0 : Frame) :
    boxLabelColors (traceOf s colors tracker im0) =
      (zip3 (tracker im0).clss (tracker im0).track_ids (tracker im0).boxes).map
        fun x => colors x.2.1 := by
  rw [traceOf_eq, boxLabelColors_append, drawList_boxLabelColors]
  have h0 : boxLabelColors [DrawEvent.display] = [] := rfl
  rw [h0, List.append_nil]

theorem traceOf_visioneyePoints (s : VisionEye) (colors : Int → Color)
    (tracker : Frame → TrackerOut) (im0 : Frame) :
    visioneyePoints (traceOf s colors tracker im0) =
      (zip3 (tracker im0).clss (tracker im0).track_ids (tracker im0).boxes).map
        fun _ => s.vision_point := by
  rw [traceOf_eq, visioneyePoints_append, drawList_visioneyePoints]
  have h0 : visioneyePoints [DrawEvent.display] = [] := rfl
  rw [h0, List.append_nil]

theorem drawList_congr (s1 s2 : VisionEye) (colors : Int → Color)
    (l : List (Nat × Int × Box))
    (hvp : s1.vision_point = s2.vision_point)
    (hlw : s1.line_width = s2.line_width)
    (hn : s1.names = s2.names) :
    drawList s1 colors l = drawList s2 colors l := by
  induction l with
  | nil => rfl
  | cons x rest ih =>
    obtain ⟨cls, t_id, box⟩ := x
    simp [drawList, hvp, hlw, hn, ih]

/-- C1: for every frame whose Tracker output contains N tracks, `mapping`
returns `total_tracks = N` and performs exactly N labeled-box draws and
exactly N vision-link draws, one pair per track, in the same order as the
Tracker's output sequence. -/
theorem mapping_annotates_each_track (s : VisionEye) (colors : Int → Color)
    (tracker : Frame → TrackerOut) (im0 : Frame) (N : Nat)
    (hc : (tracker im0).clss.length = N)
    (ht : (tracker im0).track_ids.length = N)
    (hb : (tracker im0).boxes.length = N) :
    (resultOf s colors tracker im0).total_tracks = N ∧
    (traceOf s colors tracker im0).countP isBoxLabel = N ∧
    (traceOf s colors tracker im0).countP isVisioneye = N ∧
    boxLabelBoxes (traceOf s colors tracker im0) = (tracker im0).boxes ∧
    visioneyeBoxes (traceOf s colors tracker im0) = (tracker im0).boxes := by
  have hzl : (zip3 (tracker im0).clss (tracker im0).track_ids (tracker im0).boxes).length
      = N := by
    rw [zip3_length, hc, ht, hb]
    omega
  have hab : (tracker im0).clss.length = (tracker im0).track_ids.length := by
    rw [hc, ht]
  have hbc : (tracker im0).track_ids.length = (tracker im0).boxes.length := by
    rw [ht, hb]
  refine ⟨ht, ?_, ?_, ?_, ?_⟩
  · rw [traceOf_countP_boxLabel, hzl]
  · rw [traceOf_countP_visioneye, hzl]
  · rw [traceOf_boxLabelBoxes, zip3_map_box _ _ _ hab hbc]
  · rw [traceOf_visioneyeBoxes, zip3_map_box _ _ _ hab hbc]

/-- C1 witness: the spec's end-to-end scenario with two tracks. -/
theorem mapping_annotates_each_track_witness :
    (resultOf sampleState samplePalette sampleTracker sampleFrame).total_tracks = 2 ∧
    (traceOf sampleState samplePalette sampleTracker sampleFrame).countP isBoxLabel = 2 ∧
    (traceOf sampleState samplePalette sampleTracker sampleFrame).countP isVisioneye = 2 ∧
    boxLabelBoxes (traceOf sampleState samplePalette sampleTracker sampleFrame)
      = sampleTracks.boxes ∧
    visioneyeBoxes (traceOf sampleState samplePalette sampleTracker sampleFrame)
      = sampleTracks.boxes :=
  mapping_annotates_each_track sampleState samplePalette sampleTracker sampleFrame 2
    rfl rfl rfl

/-- C2: two `mapping` calls with identical Tracker output and identical
vision point, line width and names configuration produce identical draw
traces, and within a call the resolved color of a labeled-box draw is a
function of the track id alone: positions with equal track ids get equal
colors. -/
theorem mapping_deterministic (s1 s2 : VisionEye) (colors : Int → Color)
    (tr1 tr2 : Frame → TrackerOut) (im1 im2 : Frame)
    (hvp : s1.vision_point = s2.vision_point)
    (hlw : s1.line_width = s2.line_width)
    (hn : s1.names = s2.names)
    (ht : tr1 im1 = tr2 im2) :
    traceOf s1 colors tr1 im1 = traceOf s2 colors tr2 im2 ∧
    (∀ i j : Nat,
      ((zip3 (tr1 im1).clss (tr1 im1).track_ids (tr1 im1).boxes)[i]?.map
          fun x => x.2.1) =
        ((zip3 (tr1 im1).clss (tr1 im1).track_ids (tr1 im1).boxes)[j]?.map
          fun x => x.2.1) →
      (boxLabelColors (traceOf s1 colors tr1 im1))[i]? =
        (boxLabelColors (traceOf s1 colors tr1 im1))[j]?) := by
  constructor
  · rw [traceOf_eq, traceOf_eq, ht,
      drawList_congr s1 s2 colors _ hvp hlw hn]
  · intro i j hij
    rw [traceOf_boxLabelColors]
    rw [List.getElem?_map, List.getElem?_map]
    have hk : ∀ k : Nat,
        Option.map colors
            ((zip3 (tr1 im1).clss (tr1 im1).track_ids (tr1 im1).boxes)[k]?.map
              fun x => x.2.1) =
          Option.map (fun x => colors x.2.1)
            (zip3 (tr1 im1).clss (tr1 im1).track_ids (tr1 im1).boxes)[k]? := by
      intro k
      cases (zip3 (tr1 im1).clss (tr1 im1).track_ids (tr1 im1).boxes)[k]? <;> rfl
    rw [← hk i, ← hk j, hij]

/-- C2 witness: identical tracker output, two states differing only in
verbosity, two distinct frames; the traces agree, and the two tracks
sharing track id 5 receive the same color. -/
theorem mapping_deterministic_witness :
    traceOf sampleState samplePalette dupTracker sampleFrame =
      traceOf sampleState2 samplePalette dupTracker sampleFrame2 ∧
    (boxLabelColors (traceOf sampleState samplePalette dupTracker sampleFrame))[0]? =
      (boxLabelColors (traceOf sampleState samplePalette dupTracker sampleFrame))[1]? :=
  ⟨(mapping_deterministic sampleState sampleState2 samplePalette dupTracker dupTracker
      sampleFrame sampleFrame2 rfl rfl rfl rfl).1,
    (mapping_deterministic sampleState sampleState2 samplePalette dupTracker dupTracker
      sampleFrame sampleFrame2 rfl rfl rfl rfl).2 0 1 (by decide)⟩

/-- C3: on a frame with an empty Tracker output, `mapping` completes with
`total_tracks = 0`, performs no labeled-box or vision-link draw, and still
makes the display call: the trace is exactly `[display]`. -/
theorem mapping_empty_tracks (s : VisionEye) (colors : Int → Color)
    (tracker : Frame → TrackerOut) (im0 : Frame)
    (h : tracker im0 = ⟨[], [], []⟩) :
    (resultOf s colors tracker im0).total_tracks = 0 ∧
    traceOf s colors tracker im0 = [DrawEvent.display] := by
  constructor
  · simp [resultOf, mapping, h]
  · simp [traceOf, mapping, h, zip3, annotateLoop]

/-- C3 witness: a tracker reporting no detections. -/
theorem mapping_empty_tracks_witness :
    (resultOf sampleState samplePalette emptyTracker sampleFrame).total_tracks = 0 ∧
    traceOf sampleState samplePalette emptyTracker sampleFrame = [DrawEvent.display] :=
  mapping_empty_tracks sampleState samplePalette emptyTracker sampleFrame rfl

/-- C4: after `set_vision_point p`, every vision-link draw of the next
`mapping` call uses `p` as its vision-point argument, whatever the prior
state held. -/
theorem set_vision_point_then_mapping (s : VisionEye) (p : Point)
    (colors : Int → Color) (tracker : Frame → TrackerOut) (im0 : Frame) :
    ∀ b q, DrawEvent.visioneye b q ∈
        traceOf (set_vision_point s p) colors tracker im0 →
      q = p := by
  intro b q h
  rw [traceOf_eq] at h
  rcases List.mem_append.mp h with h | h
  · exact drawList_visioneye_mem _ _ _ _ _ h
  · simp at h

/-- C4 witness: `set_vision_point (100, 100)` on a state currently holding
the default `(20, 20)`, then `mapping` on a single-track frame: the single
vision-link draw is in the trace with point `(100, 100)`. -/
theorem set_vision_point_then_mapping_witness :
    DrawEvent.visioneye sampleBox1 ⟨100, 100⟩ ∈
      traceOf (set_vision_point sampleState ⟨100, 100⟩) samplePalette oneTracker
        sampleFrame ∧
    (⟨100, 100⟩ : Point) = ⟨100, 100⟩ :=
  ⟨by decide,
    set_vision_point_then_mapping sampleState ⟨100, 100⟩ samplePalette oneTracker
      sampleFrame sampleBox1 ⟨100, 100⟩ (by decide)⟩

/-- C5: in every `mapping` call the display/emit call occurs exactly once,
as the last collaborator invocation: the trace is some display-free prefix
followed by the single display event. -/
theorem mapping_display_last (s : VisionEye) (colors : Int → Color)
    (tracker : Frame → TrackerOut) (im0 : Frame) :
    (∃ pre, traceOf s colors tracker im0 = pre ++ [DrawEvent.display] ∧
      DrawEvent.display ∉ pre) ∧
    (traceOf s colors tracker im0).count DrawEvent.display = 1 := by
  refine ⟨⟨drawList s colors
      (zip3 (tracker im0).clss (tracker im0).track_ids (tracker im0).boxes),
    traceOf_eq s colors tracker im0, drawList_no_display s colors _⟩, ?_⟩
  rw [traceOf_eq, List.count_append,
    List.count_eq_zero.mpr (drawList_no_display s colors _)]
  rfl

/-- C6: a collaborator failure during `mapping` propagates to the caller
unmodified — the call is aborted with no result, nothing is caught, wrapped
or retried, and the frame buffer keeps whatever draws completed before the
failure (no atomicity): whether the Tracker fails, a draw primitive or the
palette fails mid-loop, or the display call fails, `mapping` returns
exactly that error together with the partially mutated buffer. -/
theorem mappingE_propagates {ε : Type} (s : VisionEye) (col : Collab ε)
    (im0 : Frame) :
    (∀ e, col.tracker im0 = .error e → mappingE s col im0 = (im0, .error e)) ∧
    (∀ t f e, col.tracker im0 = .ok t →
      annotateLoopE s col (zip3 t.clss t.track_ids t.boxes) im0 = (f, some e) →
      mappingE s col im0 = (f, .error e)) ∧
    (∀ t f, col.tracker im0 = .ok t →
      annotateLoopE s col (zip3 t.clss t.track_ids t.boxes) im0 = (f, none) →
      ∀ e, col.display f = .error e → mappingE s col im0 = (f, .error e)) := by
  refine ⟨?_, ?_, ?_⟩
  · intro e h
    simp [mappingE, h]
  · intro t f e h1 h2
    simp [mappingE, h1, h2]
  · intro t f h1 h2 e h3
    simp [mappingE, h1, h2, h3]

/-- C6 witness: the `visioneye` primitive raises error 7 on the second
track; `mapping` returns that very error, no result, and the buffer keeps
the three draws completed before the failure. -/
theorem mappingE_propagates_witness :
    mappingE sampleState failingCollab sampleFrame =
      (⟨0, [DrawEvent.box_label sampleBox1 "person" (5, 64, 128) 2,
            DrawEvent.visioneye sampleBox1 ⟨20, 20⟩,
            DrawEvent.box_label sampleBox2 "car" (7, 64, 128) 2]⟩,
        .error 7) :=
  (mappingE_propagates sampleState failingCollab sampleFrame).2.1 sampleTracks
    ⟨0, [DrawEvent.box_label sampleBox1 "person" (5, 64, 128) 2,
         DrawEvent.visioneye sampleBox1 ⟨20, 20⟩,
         DrawEvent.box_label sampleBox2 "car" (7, 64, 128) 2]⟩
    7 rfl (by decide)

/-- C7: `set_vision_point` is idempotent, accepts any point (including
negative coordinates — it is total over `Int × Int`), stores exactly the
given point, and leaves `line_width`, `verbose` and the names table
untouched. -/
theorem set_vision_point_algebra (s : VisionEye) (p : Point) :
    set_vision_point (set_vision_point s p) p = set_vision_point s p ∧
    (set_vision_point s p).vision_point = p ∧
    (set_vision_point s p).line_width = s.line_width ∧
    (set_vision_point s p).verbose = s.verbose ∧
    (set_vision_point s p).names = s.names :=
  ⟨rfl, rfl, rfl, rfl, rfl⟩

/-- C8: right after construction the stored vision point is the default
`(20, 20)`, and a `mapping` call in that state uses `(20, 20)` in every
vision-link draw. -/
theorem init_default_vision_point (cfg : Config) (colors : Int → Color)
    (tracker : Frame → TrackerOut) (im0 : Frame) :
    (VisionEye.init cfg).vision_point = ⟨20, 20⟩ ∧
    ∀ b q, DrawEvent.visioneye b q ∈
        traceOf (VisionEye.init cfg) colors tracker im0 →
      q = ⟨20, 20⟩ := by
  refine ⟨rfl, ?_⟩
  intro b q h
  rw [traceOf_eq] at h
  rcases List.mem_append.mp h with h | h
  · exact drawList_visioneye_mem _ _ _ _ _ h
  · simp at h

/-- C8 witness: a freshly constructed annotator on the two-track scenario;
the first vision-link draw is in the trace anchored at `(20, 20)`. -/
theorem init_default_vision_point_witness :
    (VisionEye.init sampleConfig).vision_point = ⟨20, 20⟩ ∧
    DrawEvent.visioneye sampleBox1 ⟨20, 20⟩ ∈
      traceOf (VisionEye.init sampleConfig) samplePalette sampleTracker sampleFrame ∧
    (⟨20, 20⟩ : Point) = ⟨20, 20⟩ :=
  ⟨(init_default_vision_point sampleConfig samplePalette sampleTracker sampleFrame).1,
    by decide,
    (init_default_vision_point sampleConfig samplePalette sampleTracker
        sampleFrame).2 sampleBox1 ⟨20, 20⟩ (by decide)⟩

/-- C9: the frame carried in the returned `SolutionResults` is the caller's
input buffer mutated in place, not a copy: the result's `plot_im` is the
final frame, the final frame keeps the input buffer's identity, and its
raster operations are the input's operations extended by this call's
draws. -/
theorem mapping_frame_aliased (s : VisionEye) (colors : Int → Color)
    (tracker : Frame → TrackerOut) (im0 : Frame) :
    (resultOf s colors tracker im0).plot_im = frameOf s colors tracker im0 ∧
    (frameOf s colors tracker im0).base = im0.base ∧
    (frameOf s colors tracker im0).ops =
      im0.ops ++ drawList s colors
        (zip3 (tracker im0).clss (tracker im0).track_ids (tracker im0).boxes) := by
  refine ⟨rfl, ?_, ?_⟩ <;>
    simp [frameOf, mapping, annotateLoop_fst]

/-- C10: with per-frame sequences of unequal lengths, `mapping` performs
exactly `min (len clss) (min (len track_ids) (len boxes))` labeled-box and
vision-link draw pairs — Python `zip` truncation — but still reports
`total_tracks = len track_ids`; the report matches the number of annotated
tracks exactly when `len track_ids` is at most both other lengths. -/
theorem mapping_zip_truncation (s : VisionEye) (colors : Int → Color)
    (tracker : Frame → TrackerOut) (im0 : Frame) :
    (traceOf s colors tracker im0).countP isBoxLabel =
      min (tracker im0).clss.length
        (min (tracker im0).track_ids.length (tracker im0).boxes.length) ∧
    (traceOf s colors tracker im0).countP isVisioneye =
      min (tracker im0).clss.length
        (min (tracker im0).track_ids.length (tracker im0).boxes.length) ∧
    (resultOf s colors tracker im0).total_tracks = (tracker im0).track_ids.length ∧
    ((resultOf s colors tracker im0).total_tracks =
        (traceOf s colors tracker im0).countP isBoxLabel ↔
      (tracker im0).track_ids.length ≤ (tracker im0).clss.length ∧
        (tracker im0).track_ids.length ≤ (tracker im0).boxes.length) := by
  have hb := traceOf_countP_boxLabel s colors tracker im0
  have hv := traceOf_countP_visioneye s colors tracker im0
  rw [zip3_length] at hb hv
  have htot : (resultOf s colors tracker im0).total_tracks =
      (tracker im0).track_ids.length := rfl
  refine ⟨hb, hv, htot, ?_⟩
  rw [htot, hb]
  omega
